import Mathlib

/-!
Verification development for the Goa tourism survey application
(`src/app.py`).  The wizard state, validation, normalization, storage and
admin-gate logic of the source file are shallowly embedded below; Python
strings become `String`, the `st.session_state.form` dictionary (whose
keys default to the empty string via `dict.get(k, "")`) becomes a total
function `String → String`, and the SQLite table becomes an optional pair
of a column list and a row list.  All definitions are executable and
structurally recursive so that concrete runs evaluate by `decide`/`rfl`.
-/

/-- Python semantics helpers: `str.replace`, `str.strip`, `str.lower`,
`c in s`.  The Lean core versions of these operate on UTF-8 byte
positions through well-founded recursion and do not reduce in the
kernel, so faithful structurally-recursive versions over `List Char`
are used instead. -/
def pyIsSpace (c : Char) : Bool :=
  c = ' ' || c = '\t' || c = '\n' || c = '\r' || c = '\x0b' || c = '\x0c'

/-- Python `str.strip()`: drop whitespace from both ends. -/
def pyStrip (s : String) : String :=
  ⟨((s.data.dropWhile pyIsSpace).reverse.dropWhile pyIsSpace).reverse⟩

/-- Python `str.lower()` (the option labels in this app are ASCII). -/
def pyLower (s : String) : String :=
  ⟨s.data.map Char.toLower⟩

def charPrefixOf : List Char → List Char → Bool
  | [], _ => true
  | _ :: _, [] => false
  | a :: as, b :: bs => a == b && charPrefixOf as bs

/-- Non-overlapping left-to-right replacement, fuel-structured so the
kernel can evaluate it.  The fuel is the length of the subject string,
which bounds the number of recursion steps. -/
def pyReplaceAux (pat rep : List Char) : Nat → List Char → List Char
  | _, [] => []
  | 0, s => s
  | fuel + 1, c :: rest =>
    if charPrefixOf pat (c :: rest) then
      rep ++ pyReplaceAux pat rep fuel (List.drop (pat.length - 1) rest)
    else
      c :: pyReplaceAux pat rep fuel rest

/-- Python `s.replace(pat, rep)` for non-empty `pat` (the source never
replaces an empty pattern). -/
def pyReplace (s pat rep : String) : String :=
  ⟨pyReplaceAux pat.data rep.data s.data.length s.data⟩

def pyContains (s : String) (c : Char) : Bool :=
  s.data.contains c

/-- The in-progress answer mapping: Python `st.session_state.form` is a
dict over the schema columns and is always read with `f.get(k, "")`, so
it is embedded as a total function with default value `""`. -/
abbrev Form := String → String

/-- A single Python dict assignment `f[k] = v`. -/
def updateF (f : Form) (k v : String) : Form :=
  fun q => if q = k then v else f q

/-- A sequence of dict assignments, applied left to right. -/
def applyUpdates (f : Form) (us : List (String × String)) : Form :=
  us.foldl (fun g p => updateF g p.1 p.2) f

/-- Loop `for k in ks: f[k] = ""` (the category-switch reset in
`render_step_1`). -/
def setBlank (f : Form) (ks : List String) : Form :=
  ks.foldl (fun g k => updateF g k "") f

/-- `ALL_COLUMNS` from `src/app.py` lines 23-60. -/
def ALL_COLUMNS : List String := [
  "timestamp",
  "respondent_type",
  "zone",
  "zone_other_text",
  "time_in_area",
  "age_group",
  "length_of_stay",
  "places_visited",
  "aware_water_stress",
  "showers_per_day",
  "drinking_water",
  "tourism_increases_water_demand",
  "perceived_crowding",
  "crowding_reduces_enjoyment",
  "beach_cleanliness",
  "tourism_affects_water_availability",
  "peak_season_shortages_local",
  "tanker_dependency",
  "water_trend_years",
  "benefits_shared_fairly",
  "peak_season_shortages_staff",
  "main_water_source",
  "water_saving_measures",
  "tourism_growth_increases_pressure",
  "peak_season_pressure",
  "facilities_stressed",
  "infra_handles_future_growth",
  "biggest_issue",
  "should_define_limits",
  "support_stricter_water_rules",
  "priority_suggestion"]

/-- `RESPONDENT_TYPES` from `src/app.py` lines 104-111. -/
def RESPONDENT_TYPES : List String := [
  "Tourist",
  "Local Resident",
  "Hotel / Homestay / Resort Staff",
  "Shack / Restaurant Worker",
  "Taxi / Transport Worker",
  "Beach Worker / Lifeguard"]

/-- `multiselect_to_text` from `src/app.py` lines 156-157. -/
def multiselect_to_text (values : List String) : String :=
  if values.isEmpty then "" else String.intercalate ", " values

/-- Required (field, question) pairs for Tourists, `src/app.py` 182-192. -/
def touristRequired : List (String × String) := [
  ("length_of_stay", "Q4"),
  ("places_visited", "Q5"),
  ("aware_water_stress", "Q6"),
  ("showers_per_day", "Q7"),
  ("drinking_water", "Q8"),
  ("tourism_increases_water_demand", "Q9"),
  ("perceived_crowding", "Q10"),
  ("crowding_reduces_enjoyment", "Q11"),
  ("beach_cleanliness", "Q12")]

/-- Required pairs for Local Residents, `src/app.py` 198-204. -/
def localResidentRequired : List (String × String) := [
  ("tourism_affects_water_availability", "Q13"),
  ("peak_season_shortages_local", "Q14"),
  ("tanker_dependency", "Q15"),
  ("water_trend_years", "Q16"),
  ("benefits_shared_fairly", "Q17")]

/-- Required pairs for hotel/shack staff, `src/app.py` 210-215. -/
def staffRequired : List (String × String) := [
  ("peak_season_shortages_staff", "Q18"),
  ("main_water_source", "Q19"),
  ("water_saving_measures", "Q20"),
  ("tourism_growth_increases_pressure", "Q21")]

/-- Required pairs for transport/beach workers, `src/app.py` 221-225. -/
def workerRequired : List (String × String) := [
  ("peak_season_pressure", "Q22"),
  ("facilities_stressed", "Q23"),
  ("infra_handles_future_growth", "Q24")]

/-- Required pairs for step 3, `src/app.py` 233-237. -/
def step3Required : List (String × String) := [
  ("biggest_issue", "Q25"),
  ("should_define_limits", "Q26"),
  ("support_stricter_water_rules", "Q27")]

/-- The loop `for k, q in required: if not str(f.get(k, "")).strip():
set_error(...)`, producing the error messages in iteration order. -/
def requiredErrors (f : Form) (req : List (String × String)) (msg : String) :
    List String :=
  req.filterMap fun p => if pyStrip (f p.1) = "" then some (p.2 ++ msg) else none

/-- Step-0 block of `validate_current_step`, `src/app.py` 167-169. -/
def validateStep0 (f : Form) : List String :=
  if f "respondent_type" = "" then ["Q1 (Respondent type) is required."] else []

/-- Step-1 block of `validate_current_step`, `src/app.py` 171-177.
Note that `zone` and `time_in_area` are tested with Python truthiness
(no strip) while the companion text is stripped. -/
def validateStep1 (f : Form) : List String :=
  (if f "zone" = "" then ["Q2 (Zone) is required."] else []) ++
  (if f "zone" = "Other" ∧ pyStrip (f "zone_other_text") = "" then
     ["Q2 (Other zone) is required when Zone = Other."] else []) ++
  (if f "time_in_area" = "" then ["Q3 (Time in area) is required."] else [])

/-- Step-2 block of `validate_current_step`, `src/app.py` 179-230. -/
def validateStep2 (f : Form) : List String :=
  let rt := f "respondent_type"
  if rt = "Tourist" then
    requiredErrors f touristRequired " is required for Tourist respondents."
  else if rt = "Local Resident" then
    requiredErrors f localResidentRequired " is required for Local Resident respondents."
  else if rt = "Hotel / Homestay / Resort Staff" ∨ rt = "Shack / Restaurant Worker" then
    requiredErrors f staffRequired " is required for Staff respondents."
  else if rt = "Taxi / Transport Worker" ∨ rt = "Beach Worker / Lifeguard" then
    requiredErrors f workerRequired " is required for Worker respondents."
  else
    ["Respondent type is missing. Go back to Step 1."]

/-- Step-3 block of `validate_current_step`, `src/app.py` 232-240. -/
def validateStep3 (f : Form) : List String :=
  requiredErrors f step3Required " is required."

/-- `validate_current_step` from `src/app.py` 163-242: resets the error
list and runs each step's block (the Python `if step == n:` tests are
independent, so the result is their concatenation); the step is valid
exactly when the resulting list is empty. -/
def validate_current_step (step : Nat) (f : Form) : List String :=
  (if step = 0 then validateStep0 f else []) ++
  (if step = 1 then validateStep1 f else []) ++
  (if step = 2 then validateStep2 f else []) ++
  (if step = 3 then validateStep3 f else [])

/-- The per-session state initialised by `init_state`, `src/app.py`
114-126: current page, step index, draft form, error list, the last
respondent category seen (Python `None` or a string), and the admin
flag. -/
structure SessionState where
  page : String
  step : Nat
  form : Form
  errors : List String
  lastRespondentType : Option String
  adminLoggedIn : Bool

/-- `init_state` defaults, `src/app.py` 114-126. -/
def initSession : SessionState :=
  { page := "landing", step := 0, form := fun _ => "", errors := [],
    lastRespondentType := none, adminLoggedIn := false }

/-- `reset_survey`, `src/app.py` 129-138 (the widget-state clearing has
no counterpart in the embedding, which keeps only the draft). -/
def resetSurvey (s : SessionState) : SessionState :=
  { s with step := 0, form := fun _ => "", errors := [],
           lastRespondentType := none }

/-- The list of role-specific fields cleared on a category switch,
`src/app.py` 291-297. -/
def roleSpecificFields : List String := [
  "length_of_stay", "places_visited", "aware_water_stress", "showers_per_day", "drinking_water",
  "tourism_increases_water_demand", "perceived_crowding", "crowding_reduces_enjoyment", "beach_cleanliness",
  "tourism_affects_water_availability", "peak_season_shortages_local", "tanker_dependency", "water_trend_years", "benefits_shared_fairly",
  "peak_season_shortages_staff", "main_water_source", "water_saving_measures", "tourism_growth_increases_pressure",
  "peak_season_pressure", "facilities_stressed", "infra_handles_future_growth"]

/-- The form/last-category mutation performed by the `go_next` handler of
`render_step_1` before validation, `src/app.py` 286-299.  `rt` is the
selectbox value (Python `None` when unselected; `rt or ""`). -/
def step1_merge (s : SessionState) (rt : Option String) : Form × Option String :=
  if s.lastRespondentType ≠ some (rt.getD "") then
    (setBlank (updateF s.form "respondent_type" (rt.getD "")) roleSpecificFields,
     some (rt.getD ""))
  else
    (updateF s.form "respondent_type" (rt.getD ""), s.lastRespondentType)

/-- The `go_next` handler of `render_step_1`, `src/app.py` 286-303:
merge (with category-switch reset), validate step 0, and advance on
success. -/
def render_step_1_next (s : SessionState) (rt : Option String) : SessionState :=
  let m := step1_merge s rt
  let errs := validate_current_step 0 m.1
  if errs.isEmpty then
    { s with form := m.1, lastRespondentType := m.2, errors := errs, step := 1 }
  else
    { s with form := m.1, lastRespondentType := m.2, errors := errs }

/-- The form mutation of the `go_next` handler of `render_step_2`,
`src/app.py` 345-350.  `zoneOther` is the companion text-input value
(rendered only when the zone selectbox shows "Other"). -/
def step2_merge (f : Form) (zone timeInArea ageGroup : Option String)
    (zoneOther : String) : Form :=
  applyUpdates f [
    ("zone", zone.getD ""),
    ("zone_other_text", if zone = some "Other" then pyStrip zoneOther else ""),
    ("time_in_area", timeInArea.getD ""),
    ("age_group", ageGroup.getD "")]

/-- The `go_next` handler of `render_step_2`, `src/app.py` 345-354. -/
def render_step_2_next (s : SessionState) (zone timeInArea ageGroup : Option String)
    (zoneOther : String) : SessionState :=
  let f := step2_merge s.form zone timeInArea ageGroup zoneOther
  let errs := validate_current_step 1 f
  if errs.isEmpty then { s with form := f, errors := errs, step := 2 }
  else { s with form := f, errors := errs }

/-- The raw widget values of step 3 (`render_step_3` keys `q4_w` ..
`q24_w`); selectboxes yield `Option String`, multiselects lists. -/
structure Step3Input where
  q4 : Option String := none
  q5 : List String := []
  q6 : Option String := none
  q7 : Option String := none
  q8 : Option String := none
  q9 : Option String := none
  q10 : Option String := none
  q11 : Option String := none
  q12 : Option String := none
  q13 : Option String := none
  q14 : Option String := none
  q15 : Option String := none
  q16 : Option String := none
  q17 : Option String := none
  q18 : Option String := none
  q19 : Option String := none
  q20 : List String := []
  q21 : Option String := none
  q22 : Option String := none
  q23 : Option String := none
  q24 : Option String := none

/-- The per-item normalization of the water-saving multiselect,
`src/app.py` 590-598. -/
def mapWsmItem (item : String) : String :=
  pyReplace (pyReplace (pyReplace (pyReplace item
    "Towel reuse policy" "towel reuse")
    "Low-flow fixtures" "low-flow fixtures")
    "Guest awareness signage" "signage")
    "None" "none"

/-- The normalization-and-merge block of the `go_next` handler of
`render_step_3`, `src/app.py` 546-605, branching on the respondent
category recorded in the draft. -/
def step3_merge (f : Form) (rt : String) (i : Step3Input) : Form :=
  if rt = "Tourist" then
    applyUpdates f [
      ("length_of_stay", pyStrip (pyReplace (i.q4.getD "") "More than 7 days" ">7 days")),
      ("places_visited", multiselect_to_text i.q5),
      ("aware_water_stress", pyLower (pyStrip (i.q6.getD ""))),
      ("showers_per_day", pyReplace (pyReplace (pyReplace (i.q7.getD "") "Once" "1") "Twice" "2") "More than twice" ">2"),
      ("drinking_water", pyReplace (pyReplace (pyReplace (i.q8.getD "") "Bottled water" "bottled") "Hotel-provided filtered water" "filtered") "Both" "both"),
      ("tourism_increases_water_demand", pyLower (i.q9.getD "")),
      ("perceived_crowding", pyLower (i.q10.getD "")),
      ("crowding_reduces_enjoyment", pyLower (i.q11.getD "")),
      ("beach_cleanliness", pyLower (i.q12.getD ""))]
  else if rt = "Local Resident" then
    applyUpdates f [
      ("tourism_affects_water_availability", pyReplace (pyReplace (pyReplace (i.q13.getD "") "Yes, significantly" "yes significantly") "Yes, slightly" "yes slightly") "No" "no"),
      ("peak_season_shortages_local", pyLower (i.q14.getD "")),
      ("tanker_dependency", pyLower (i.q15.getD "")),
      ("water_trend_years", pyLower (i.q16.getD "")),
      ("benefits_shared_fairly", pyLower (i.q17.getD ""))]
  else if rt = "Hotel / Homestay / Resort Staff" ∨ rt = "Shack / Restaurant Worker" then
    applyUpdates f [
      ("peak_season_shortages_staff", pyLower (i.q18.getD "")),
      ("main_water_source", pyReplace (pyReplace (pyReplace (pyReplace (i.q19.getD "") "Municipal supply" "municipal") "Borewell / groundwater" "borewell/groundwater") "Water tankers" "tankers") "Combination" "combination"),
      ("water_saving_measures", multiselect_to_text (i.q20.map mapWsmItem)),
      ("tourism_growth_increases_pressure", pyLower (i.q21.getD ""))]
  else if rt = "Taxi / Transport Worker" ∨ rt = "Beach Worker / Lifeguard" then
    applyUpdates f [
      ("peak_season_pressure", pyLower (i.q22.getD "")),
      ("facilities_stressed", pyLower (i.q23.getD "")),
      ("infra_handles_future_growth", pyLower (i.q24.getD ""))]
  else f

/-- The `go_next` handler of `render_step_3`, `src/app.py` 546-609. -/
def render_step_3_next (s : SessionState) (i : Step3Input) : SessionState :=
  let f := step3_merge s.form (s.form "respondent_type") i
  let errs := validate_current_step 2 f
  if errs.isEmpty then { s with form := f, errors := errs, step := 3 }
  else { s with form := f, errors := errs }

/-- Storage faults of the SQLite layer: a missing table, a missing
column, or an I/O failure of the medium (`sqlite3` raising during the
`INSERT`). -/
inductive StorageFault
  | noTable
  | missingColumn
  | ioError
deriving DecidableEq

/-- One persisted row: the auto-increment id plus the (column, value)
cells written by `insert_response`. -/
abbrev StoredRow := Nat × List (String × String)

/-- The SQLite database: `none` models an absent `responses` table,
`some (cols, rows)` an existing table with its column list and rows in
insertion order. -/
structure AnswerStore where
  table : Option (List String × List StoredRow)
deriving DecidableEq

/-- Column list produced by `CREATE_TABLE_SQL`, `src/app.py` 62-67: the
surrogate `id` key followed by `ALL_COLUMNS`. -/
def dbColumns : List String := "id" :: ALL_COLUMNS

/-- `ensure_db`, `src/app.py` 73-77: `CREATE TABLE IF NOT EXISTS` —
creates the full-schema table when absent and is a no-op on an existing
table (no column migration is performed). -/
def ensure_db (s : AnswerStore) : AnswerStore :=
  match s.table with
  | none => ⟨some (dbColumns, [])⟩
  | some _ => s

/-- Python `"" if row.get(c) is None else str(row.get(c))`: a key that is
absent or maps to `None` is normalized to the empty string. -/
def pyGet (row : List (String × Option String)) (c : String) : String :=
  match row.lookup c with
  | some (some v) => v
  | _ => ""

/-- The normalized cell list built by `insert_response`, `src/app.py`
line 81. -/
def normRow (row : List (String × Option String)) : List (String × String) :=
  ALL_COLUMNS.map fun c => (c, pyGet row c)

/-- `insert_response`, `src/app.py` 80-87: one atomic insert of the
normalized row; fails if the table (or one of the named columns) does
not exist. -/
def insert_response (row : List (String × Option String)) (s : AnswerStore) :
    Except StorageFault AnswerStore :=
  match s.table with
  | none => .error .noTable
  | some (cols, rows) =>
    if ALL_COLUMNS.all (fun c => cols.contains c) then
      .ok ⟨some (cols, rows ++ [(rows.length + 1, normRow row)])⟩
    else .error .missingColumn

/-- The rows currently stored (insertion order). -/
def storeRows (s : AnswerStore) : List StoredRow :=
  match s.table with
  | some (_, rows) => rows
  | none => []

/-- `fetch_all_responses`, `src/app.py` 90-94: ensures the table, then
`SELECT * ... ORDER BY id DESC` — since ids increase with insertion
order, the result is the reverse of the stored row list. -/
def fetch_all_responses (s : AnswerStore) : AnswerStore × List StoredRow :=
  let s1 := ensure_db s
  (s1, (storeRows s1).reverse)

/-- Value of a fetched row at a column (empty when absent). -/
def rowGet (r : StoredRow) (c : String) : String :=
  (r.2.lookup c).getD ""

/-- The form mutation of the submit handler of `render_step_4`,
`src/app.py` 652-656. -/
def step4_merge (f : Form) (biggestIssue limits stricter : Option String)
    (suggestion : String) : Form :=
  applyUpdates f [
    ("biggest_issue", pyLower (biggestIssue.getD "")),
    ("should_define_limits", pyLower (limits.getD "")),
    ("support_stricter_water_rules", pyLower (stricter.getD "")),
    ("priority_suggestion", pyStrip suggestion)]

/-- Timestamping and companion-column clearing performed on a validated
draft just before `insert_response`, `src/app.py` 660-664. -/
def commitForm (f : Form) (ts : String) : Form :=
  let f1 := updateF f "timestamp" ts
  if f1 "zone" ≠ "Other" then updateF f1 "zone_other_text" "" else f1

/-- The dict passed to `insert_response` at commit: every schema column
is present with a string value. -/
def rowOfForm (f : Form) : List (String × Option String) :=
  ALL_COLUMNS.map fun c => (c, some (f c))

/-- The submit handler of `render_step_4`, `src/app.py` 651-671: merge,
validate step 3, and on success ensure the table, stamp the clock value
`ts`, clear the companion column when zone is not "Other", and insert.
`diskOk = false` models the storage medium failing during the `INSERT`
(the `sqlite3` exception propagates uncaught, so the session keeps its
mutated draft and the fault component records what surfaced).  On
success the draft is reset and the session returns to the landing
page. -/
def render_step_4_submit (s : SessionState) (store : AnswerStore)
    (biggestIssue limits stricter : Option String) (suggestion ts : String)
    (diskOk : Bool) : (SessionState × AnswerStore) × Option StorageFault :=
  let f := step4_merge s.form biggestIssue limits stricter suggestion
  let errs := validate_current_step 3 f
  if errs.isEmpty then
    let store1 := ensure_db store
    let f2 := commitForm f ts
    if diskOk then
      match insert_response (rowOfForm f2) store1 with
      | .ok store2 => (({ resetSurvey s with page := "landing" }, store2), none)
      | .error e => (({ s with form := f2, errors := errs }, store1), some e)
    else
      (({ s with form := f2, errors := errs }, store1), some .ioError)
  else
    (({ s with form := f, errors := errs }, store), none)

/-- Admin credentials, `src/app.py` 16-17. -/
def ADMIN_USERNAME : String := "givegoagroup9"

def ADMIN_PASSWORD : String := "987654321"

/-- The credential check of `render_admin`, `src/app.py` line 726: the
login succeeds exactly when the negated rejection test
`username != ADMIN_USERNAME or password != ADMIN_PASSWORD` fails. -/
def authenticate (username password : String) : Bool :=
  !(username != ADMIN_USERNAME || password != ADMIN_PASSWORD)

/-- What one run of `render_admin` shows: the resulting admin flag, the
error message (if any), and the fetched rows when the data view is
reached (`none` when no data is accessible on this run). -/
structure AdminRender where
  adminLoggedIn : Bool
  errorMessage : Option String
  dataShown : Option (List StoredRow)

/-- One run of `render_admin`, `src/app.py` 707-749, up to the data
table/download: when not logged in, a submitted credential pair either
fails with the generic message (flag untouched, no data fetched) or
sets the flag and reruns; when logged in, the rows are fetched and
offered for display and CSV download. -/
def render_admin (adminLoggedIn : Bool) (loginSubmitted : Bool)
    (username password : String) (store : AnswerStore) :
    AdminRender × AnswerStore :=
  if !adminLoggedIn then
    if !loginSubmitted then (⟨adminLoggedIn, none, none⟩, store)
    else if username != ADMIN_USERNAME || password != ADMIN_PASSWORD then
      (⟨false, some "Invalid username or password.", none⟩, store)
    else (⟨true, none, none⟩, store)
  else
    let fr := fetch_all_responses store
    (⟨adminLoggedIn, none, some fr.2⟩, fr.1)

/-- UTF-8 encoding of one code point (what Python `str.encode("utf-8")`
emits per character). -/
def utf8Bytes (n : Nat) : List Nat :=
  if n < 0x80 then [n]
  else if n < 0x800 then [0xC0 + n / 64, 0x80 + n % 64]
  else if n < 0x10000 then
    [0xE0 + n / 4096, 0x80 + (n / 64) % 64, 0x80 + n % 64]
  else
    [0xF0 + n / 262144, 0x80 + (n / 4096) % 64, 0x80 + (n / 64) % 64, 0x80 + n % 64]

/-- Python `s.encode("utf-8")` as a byte list. -/
def utf8Encode (s : String) : List Nat :=
  (s.data.map fun c => utf8Bytes c.toNat).flatten

/-- The byte-order marker that Python's `utf-8-sig` codec would prefix
(and plain `utf-8` does not). -/
def utf8BOM : List Nat := [0xEF, 0xBB, 0xBF]

/-- Pandas minimal CSV quoting: a field is quoted only when it contains
a delimiter, quote or line break. -/
def csvField (s : String) : String :=
  if pyContains s ',' || pyContains s '"' || pyContains s '\n' || pyContains s '\r' then
    "\"" ++ pyReplace s "\"" "\"\"" ++ "\""
  else s

def csvLine (cells : List String) : String :=
  String.intercalate "," (cells.map csvField)

/-- `df.to_csv(index=False)` for a frame with the given columns and
string cells: header line then one line per row, each newline
terminated. -/
def df_to_csv (cols : List String) (rows : List (List String)) : String :=
  (csvLine cols ++ "\n") ++ String.join (rows.map fun r => csvLine r ++ "\n")

/-- `df_to_csv_bytes`, `src/app.py` 97-98:
`df.to_csv(index=False).encode("utf-8")`. -/
def df_to_csv_bytes (cols : List String) (rows : List (List String)) : List Nat :=
  utf8Encode (df_to_csv cols rows)

/-- The user-interface events that mutate the draft or the store: the
buttons of the landing page, the per-step `Next`/`Submit` handlers, and
the `Back`/`Cancel` buttons of `render_survey` (`src/app.py` 248-701).
`submit4` carries the clock value and a disk-health flag for the
insert. -/
inductive WizardAct
  | start
  | next1 (rt : Option String)
  | next2 (zone timeInArea ageGroup : Option String) (zoneOther : String)
  | next3 (i : Step3Input)
  | submit4 (biggestIssue limits stricter : Option String) (suggestion ts : String) (diskOk : Bool)
  | back
  | cancel

abbrev AppState := SessionState × AnswerStore

/-- The state after `main` starts up: `init_state()` plus the initial
`ensure_db()` (`src/app.py` 780-783) on a fresh data directory. -/
def initApp : AppState := (initSession, ensure_db ⟨none⟩)

/-- One user event.  Each step handler only runs when its page is
rendered, i.e. when `page` is "survey" and `step` matches
(`render_survey`, `src/app.py` 674-701); `back` floors at step 0 and
clears errors; `cancel` and the landing/sidebar `start` reset the
draft. -/
def stepFn (a : AppState) (act : WizardAct) : AppState :=
  match act with
  | .start =>
    if a.1.page ≠ "survey" then ({ resetSurvey a.1 with page := "survey" }, a.2) else a
  | .next1 rt =>
    if a.1.page = "survey" ∧ a.1.step = 0 then (render_step_1_next a.1 rt, a.2) else a
  | .next2 z t g o =>
    if a.1.page = "survey" ∧ a.1.step = 1 then (render_step_2_next a.1 z t g o, a.2) else a
  | .next3 i =>
    if a.1.page = "survey" ∧ a.1.step = 2 then (render_step_3_next a.1 i, a.2) else a
  | .submit4 bi lim strict sugg ts ok =>
    if a.1.page = "survey" ∧ a.1.step = 3 then
      (render_step_4_submit a.1 a.2 bi lim strict sugg ts ok).1
    else a
  | .back =>
    if a.1.page = "survey" then ({ a.1 with errors := [], step := a.1.step - 1 }, a.2) else a
  | .cancel =>
    if a.1.page = "survey" then ({ resetSurvey a.1 with page := "landing" }, a.2) else a

/-- A full user session: the fold of events from the fresh start. -/
def runActs (acts : List WizardAct) : AppState :=
  acts.foldl stepFn initApp

/-- The role-specific field set belonging to a respondent category (the
field components of the per-category required lists of
`validate_current_step`, which coincide with the fields written by
`render_step_3`); empty for an invalid or unset category. -/
def roleFieldsOf (rt : String) : List String :=
  if rt = "Tourist" then touristRequired.map Prod.fst
  else if rt = "Local Resident" then localResidentRequired.map Prod.fst
  else if rt = "Hotel / Homestay / Resort Staff" ∨ rt = "Shack / Restaurant Worker" then
    staffRequired.map Prod.fst
  else if rt = "Taxi / Transport Worker" ∨ rt = "Beach Worker / Lifeguard" then
    workerRequired.map Prod.fst
  else []

/-- Every role-specific field that does not belong to the draft's own
respondent category is blank. -/
def OtherRolesEmpty (f : Form) : Prop :=
  ∀ k ∈ roleSpecificFields, k ∉ roleFieldsOf (f "respondent_type") → f k = ""

/-- The stored-row version of `OtherRolesEmpty`. -/
def OtherRolesEmptyRow (r : StoredRow) : Prop :=
  ∀ k ∈ roleSpecificFields,
    k ∉ roleFieldsOf (rowGet r "respondent_type") → rowGet r k = ""

/-- A complete Tourist session that answers the zone question with
"Other" and companion text "North Goa", passes every validation, and
commits. -/
def otherZoneActs : List WizardAct := [
  .start,
  .next1 (some "Tourist"),
  .next2 (some "Other") (some "<1 week") none "North Goa",
  .next3 { q4 := some "1–3 days", q5 := ["Beaches"], q6 := some "Yes",
           q7 := some "Once", q8 := some "Both", q9 := some "Agree",
           q10 := some "Low", q11 := some "Slightly", q12 := some "Clean" },
  .submit4 (some "Water shortage") (some "Agree") (some "Yes") "" "2026-01-01T00:00:00+05:30" true]

/-- The rows stored after that session. -/
def otherZoneRows : List StoredRow := storeRows (runActs otherZoneActs).2

/-- The single committed response of that session. -/
def otherZoneRow : StoredRow := otherZoneRows.headD (0, [])

/-- A validated draft whose zone question was answered "Other" with the
companion text "North Goa" (as `render_step_2` records it). -/
def otherZoneForm : Form :=
  fun k => if k = "zone" then "Other"
           else if k = "zone_other_text" then "North Goa" else ""

/-- A database in which the `responses` table has not been created. -/
def emptyStore : AnswerStore := ⟨none⟩

/-- An existing store created under an older, shorter schema: its table
has only the surrogate key and the timestamp column, so every other
field of `ALL_COLUMNS` is missing. -/
def legacyStore : AnswerStore := ⟨some (["id", "timestamp"], [])⟩

/-- A concrete insert payload: one present key, one key mapped to
Python `None`, every other schema key absent. -/
def demoRowInput : List (String × Option String) :=
  [("zone", some "Baga"), ("timestamp", none)]

/-- A freshly created store. -/
def demoStore : AnswerStore := ensure_db emptyStore

/-- The store after inserting `demoRowInput` into `demoStore`. -/
def demoStore2 : AnswerStore := ⟨some (dbColumns, [(1, normRow demoRowInput)])⟩

/-- A draft that selected Tourist and answered nothing else. -/
def emptyTouristForm : Form :=
  fun k => if k = "respondent_type" then "Tourist" else ""

/-! Pointwise lemmas about dict assignment. -/

theorem updateF_self (f : Form) (k v : String) : updateF f k v k = v := if_pos rfl

theorem updateF_ne (f : Form) {k q : String} (v : String) (h : q ≠ k) :
    updateF f k v q = f q := if_neg h

theorem applyUpdates_not_mem (us : List (String × String)) (f : Form) {k : String}
    (h : k ∉ us.map Prod.fst) : applyUpdates f us k = f k := by
  induction us generalizing f with
  | nil => rfl
  | cons p rest ih =>
    simp only [List.map_cons, List.mem_cons, not_or] at h
    simpa [applyUpdates, updateF_ne _ _ h.1] using ih (updateF f p.1 p.2) h.2

theorem applyUpdates_mem_nodup (us : List (String × String)) (f : Form)
    {k v : String} (hnd : (us.map Prod.fst).Nodup) (hm : (k, v) ∈ us) :
    applyUpdates f us k = v := by
  induction us generalizing f with
  | nil => cases hm
  | cons p rest ih =>
    simp only [List.map_cons, List.nodup_cons] at hnd
    rcases List.mem_cons.mp hm with h | h
    · cases h
      have : k ∉ rest.map Prod.fst := hnd.1
      show applyUpdates (updateF f k v) rest k = v
      rw [applyUpdates_not_mem rest _ this, updateF_self]
    · exact ih (updateF f p.1 p.2) hnd.2 h

theorem setBlank_apply (ks : List String) (f : Form) (k : String) :
    setBlank f ks k = if k ∈ ks then "" else f k := by
  induction ks generalizing f with
  | nil => simp [setBlank]
  | cons a rest ih =>
    show setBlank (updateF f a "") rest k = _
    rw [ih]
    by_cases hr : k ∈ rest
    · simp [hr]
    · by_cases ha : k = a
      · subst ha; simp [hr, updateF_self]
      · simp [hr, ha, updateF_ne _ _ ha]

theorem lookup_map_mem {β : Type} (g : String → β) (ks : List String) {k : String}
    (h : k ∈ ks) : (ks.map fun c => (c, g c)).lookup k = some (g k) := by
  induction ks with
  | nil => cases h
  | cons a rest ih =>
    by_cases ha : k = a
    · subst ha; simp [List.lookup]
    · rcases List.mem_cons.mp h with h' | h'
      · exact absurd h' ha
      · simpa [List.lookup, beq_eq_false_iff_ne.mpr ha] using ih h'

/-! Lemmas about the per-step validators. -/

theorem requiredErrors_eq_nil (f : Form) (req : List (String × String)) (msg : String) :
    requiredErrors f req msg = [] ↔ ∀ p ∈ req, ¬ pyStrip (f p.1) = "" := by
  simp only [requiredErrors, List.filterMap_eq_nil_iff]
  constructor
  · intro h p hp hbad
    have := h p hp
    simp [hbad] at this
  · intro h p hp
    simp [h p hp]

theorem requiredErrors_ne_nil (f : Form) (req : List (String × String)) (msg : String) :
    requiredErrors f req msg ≠ [] ↔ ∃ p ∈ req, pyStrip (f p.1) = "" := by
  rw [Ne, requiredErrors_eq_nil]
  push_neg
  rfl

theorem exists_fst_iff (req : List (String × String)) (P : String → Prop) :
    (∃ k ∈ req.map Prod.fst, P k) ↔ ∃ p ∈ req, P p.1 := by
  constructor
  · rintro ⟨k, hk, hP⟩
    rcases List.mem_map.mp hk with ⟨p, hp, rfl⟩
    exact ⟨p, hp, hP⟩
  · rintro ⟨p, hp, hP⟩
    exact ⟨p.1, List.mem_map.mpr ⟨p, hp, rfl⟩, hP⟩

theorem validate_step2_eq (f : Form) : validate_current_step 2 f = validateStep2 f := by
  simp [validate_current_step]

/-- C1: for every respondent category among the six fixed ones and every
draft answer set, the step-2 validator rejects (produces a non-empty
violation list) if and only if at least one field in that category's
required set is empty after trimming (9 fields for Tourist, 5 for Local
Resident, 4 for Hotel/Homestay/Resort Staff or Shack/Restaurant Worker,
3 for Taxi/Transport Worker or Beach Worker/Lifeguard); for any other or
unset category, step-2 validation always fails with the category-missing
error. -/
theorem c1_step2_validation :
    (∀ rt ∈ RESPONDENT_TYPES, ∀ f : Form, f "respondent_type" = rt →
      (validate_current_step 2 f ≠ [] ↔ ∃ k ∈ roleFieldsOf rt, pyStrip (f k) = "")) ∧
    (∀ f : Form, f "respondent_type" ∉ RESPONDENT_TYPES →
      validate_current_step 2 f = ["Respondent type is missing. Go back to Step 1."]) ∧
    (roleFieldsOf "Tourist").length = 9 ∧
    (roleFieldsOf "Local Resident").length = 5 ∧
    (roleFieldsOf "Hotel / Homestay / Resort Staff").length = 4 ∧
    (roleFieldsOf "Shack / Restaurant Worker").length = 4 ∧
    (roleFieldsOf "Taxi / Transport Worker").length = 3 ∧
    (roleFieldsOf "Beach Worker / Lifeguard").length = 3 := by
  refine ⟨?_, ?_, by decide, by decide, by decide, by decide, by decide, by decide⟩
  · intro rt hrt f hf
    rw [validate_step2_eq]
    have key : ∀ (req : List (String × String)) (msg : String),
        requiredErrors f req msg ≠ [] ↔ ∃ k ∈ req.map Prod.fst, pyStrip (f k) = "" := by
      intro req msg
      rw [requiredErrors_ne_nil]
      exact (exists_fst_iff req (fun k => pyStrip (f k) = "")).symm
    simp only [RESPONDENT_TYPES, List.mem_cons, List.not_mem_nil, or_false] at hrt
    rcases hrt with rfl | rfl | rfl | rfl | rfl | rfl
    · rw [show validateStep2 f = requiredErrors f touristRequired
          " is required for Tourist respondents." from by simp only [validateStep2, hf]; rfl]
      exact key _ _
    · rw [show validateStep2 f = requiredErrors f localResidentRequired
          " is required for Local Resident respondents." from by simp only [validateStep2, hf]; rfl]
      exact key _ _
    · rw [show validateStep2 f = requiredErrors f staffRequired
          " is required for Staff respondents." from by simp only [validateStep2, hf]; rfl]
      exact key _ _
    · rw [show validateStep2 f = requiredErrors f staffRequired
          " is required for Staff respondents." from by simp only [validateStep2, hf]; rfl]
      exact key _ _
    · rw [show validateStep2 f = requiredErrors f workerRequired
          " is required for Worker respondents." from by simp only [validateStep2, hf]; rfl]
      exact key _ _
    · rw [show validateStep2 f = requiredErrors f workerRequired
          " is required for Worker respondents." from by simp only [validateStep2, hf]; rfl]
      exact key _ _
  · intro f hf
    rw [validate_step2_eq]
    simp only [RESPONDENT_TYPES, List.mem_cons, List.not_mem_nil, or_false, not_or] at hf
    obtain ⟨h1, h2, h3, h4, h5, h6⟩ := hf
    simp [validateStep2, h1, h2, h3, h4, h5, h6]

/-- Witness for C1: the empty Tourist draft is rejected at step 2. -/
theorem c1_step2_validation_witness : validate_current_step 2 emptyTouristForm ≠ [] :=
  (c1_step2_validation.1 "Tourist" (by decide) emptyTouristForm rfl).mpr
    ⟨"length_of_stay", by decide, rfl⟩

/-- C9: step-1 validation fails exactly when the zone is empty, or the
time-in-area is empty, or zone took the "Other" path with an empty
(after stripping) companion text; the age-group value never influences
the outcome (in particular an empty age group is never a violation, and
the source offers no "other" path for the age group at all, so that
spec disjunct is vacuous). -/
theorem c9_step1_validation : ∀ f : Form,
    (validate_current_step 1 f ≠ [] ↔
      f "zone" = "" ∨ (f "zone" = "Other" ∧ pyStrip (f "zone_other_text") = "") ∨
        f "time_in_area" = "") ∧
    (∀ v : String,
      validate_current_step 1 (updateF f "age_group" v) = validate_current_step 1 f) := by
  intro f
  constructor
  · have h1 : validate_current_step 1 f = validateStep1 f := by simp [validate_current_step]
    rw [h1]
    unfold validateStep1
    by_cases hz : f "zone" = "" <;>
      by_cases ho : f "zone" = "Other" ∧ pyStrip (f "zone_other_text") = "" <;>
        by_cases ht : f "time_in_area" = "" <;>
          simp [hz, ho, ht]
  · intro v
    have hz : updateF f "age_group" v "zone" = f "zone" := updateF_ne _ _ (by decide)
    have hoz : updateF f "age_group" v "zone_other_text" = f "zone_other_text" :=
      updateF_ne _ _ (by decide)
    have htt : updateF f "age_group" v "time_in_area" = f "time_in_area" :=
      updateF_ne _ _ (by decide)
    simp [validate_current_step, validateStep1, hz, hoz, htt]

/-- Witness for C9: the blank draft is rejected at step 1, and writing
an age group into it changes nothing. -/
theorem c9_step1_validation_witness :
    validate_current_step 1 (fun _ => "") ≠ [] :=
  (c9_step1_validation (fun _ => "")).1.mpr (Or.inl rfl)

/-! Invariant machinery for the category-switch claims. -/

theorem respondent_type_not_role (rt : String) :
    "respondent_type" ∉ roleFieldsOf rt := by
  unfold roleFieldsOf
  repeat' split
  all_goals decide

theorem step3_merge_not_mem (f : Form) (rt : String) (i : Step3Input) {k : String}
    (hk : k ∉ roleFieldsOf rt) : step3_merge f rt i k = f k := by
  unfold roleFieldsOf at hk
  unfold step3_merge
  split
  · rename_i h
    rw [if_pos h] at hk
    exact applyUpdates_not_mem _ _ hk
  all_goals rename_i hA
  all_goals split
  · rename_i h
    rw [if_neg hA, if_pos h] at hk
    exact applyUpdates_not_mem _ _ hk
  all_goals rename_i hB
  all_goals split
  · rename_i h
    rw [if_neg hA, if_neg hB, if_pos h] at hk
    exact applyUpdates_not_mem _ _ hk
  all_goals rename_i hC
  all_goals split
  · rename_i h
    rw [if_neg hA, if_neg hB, if_neg hC, if_pos h] at hk
    exact applyUpdates_not_mem _ _ hk
  · rfl

/-- Session component of the reachability invariant: foreign-category
fields are blank and the recorded last category agrees with the form. -/
def SessionInv (s : SessionState) : Prop :=
  OtherRolesEmpty s.form ∧
  ∀ l, s.lastRespondentType = some l → s.form "respondent_type" = l

/-- Store component: every persisted row keeps foreign-category fields
blank. -/
def StoreInv (st : AnswerStore) : Prop :=
  ∀ r ∈ storeRows st, OtherRolesEmptyRow r

def AppInv (a : AppState) : Prop := SessionInv a.1 ∧ StoreInv a.2

theorem pyGet_rowOfForm (f : Form) {c : String} (hc : c ∈ ALL_COLUMNS) :
    pyGet (rowOfForm f) c = f c := by
  unfold pyGet rowOfForm
  rw [lookup_map_mem (fun c => some (f c)) ALL_COLUMNS hc]

theorem rowGet_norm (n : Nat) (f : Form) {c : String} (hc : c ∈ ALL_COLUMNS) :
    rowGet (n, normRow (rowOfForm f)) c = f c := by
  unfold rowGet normRow
  rw [lookup_map_mem (fun c => pyGet (rowOfForm f) c) ALL_COLUMNS hc,
      Option.getD_some, pyGet_rowOfForm f hc]

theorem otherRolesEmptyRow_of_form (n : Nat) (f : Form) (h : OtherRolesEmpty f) :
    OtherRolesEmptyRow (n, normRow (rowOfForm f)) := by
  have hsub : ∀ x ∈ roleSpecificFields, x ∈ ALL_COLUMNS := by decide
  have hresp : ("respondent_type" : String) ∈ ALL_COLUMNS := by decide
  intro k hk hnot
  rw [rowGet_norm n f hresp] at hnot
  rw [rowGet_norm n f (hsub k hk)]
  exact h k hk hnot

theorem storeRows_ensure (st : AnswerStore) : storeRows (ensure_db st) = storeRows st := by
  unfold ensure_db storeRows
  match st with
  | ⟨none⟩ => rfl
  | ⟨some t⟩ => rfl

theorem sessionInv_step1_next (s : SessionState) (rt : Option String)
    (h : SessionInv s) : SessionInv (render_step_1_next s rt) := by
  obtain ⟨hOther, hLast⟩ := h
  have hparts : (render_step_1_next s rt).form = (step1_merge s rt).1 ∧
      (render_step_1_next s rt).lastRespondentType = (step1_merge s rt).2 := by
    simp only [render_step_1_next]
    split <;> exact ⟨rfl, rfl⟩
  obtain ⟨hform, hlast⟩ := hparts
  by_cases hch : s.lastRespondentType ≠ some (rt.getD "")
  · have hm : (step1_merge s rt) =
        (setBlank (updateF s.form "respondent_type" (rt.getD "")) roleSpecificFields,
         some (rt.getD "")) := by
      unfold step1_merge
      rw [if_pos hch]
    rw [hm] at hform hlast
    dsimp only at hform hlast
    constructor
    · intro k hk _
      rw [hform, setBlank_apply]
      simp [hk]
    · intro l hl
      rw [hlast] at hl
      cases hl
      rw [hform, setBlank_apply]
      have hnr : ("respondent_type" : String) ∉ roleSpecificFields := by decide
      rw [if_neg hnr]
      exact updateF_self _ _ _
  · rw [not_ne_iff] at hch
    have hm : (step1_merge s rt) =
        (updateF s.form "respondent_type" (rt.getD ""), s.lastRespondentType) := by
      unfold step1_merge
      rw [if_neg (by rw [not_ne_iff]; exact hch)]
    rw [hm] at hform hlast
    dsimp only at hform hlast
    have hrtform : s.form "respondent_type" = rt.getD "" := hLast _ hch
    have hpt : ∀ q, (render_step_1_next s rt).form q = s.form q := by
      intro q
      rw [hform]
      by_cases hq : q = "respondent_type"
      · subst hq
        rw [updateF_self, hrtform]
      · exact updateF_ne _ _ hq
    constructor
    · intro k hk hnot
      rw [hpt] at hnot ⊢
      exact hOther k hk hnot
    · intro l hl
      rw [hlast] at hl
      rw [hpt]
      exact hLast l hl

theorem step2_merge_untouched (f : Form) (z t g : Option String) (o q : String)
    (hq : q ∉ (["zone", "zone_other_text", "time_in_area", "age_group"] : List String)) :
    step2_merge f z t g o q = f q :=
  applyUpdates_not_mem _ _ hq

theorem step4_merge_untouched (f : Form) (bi lim strict : Option String) (sugg q : String)
    (hq : q ∉ (["biggest_issue", "should_define_limits",
                "support_stricter_water_rules", "priority_suggestion"] : List String)) :
    step4_merge f bi lim strict sugg q = f q :=
  applyUpdates_not_mem _ _ hq

theorem commitForm_untouched (f : Form) (ts q : String)
    (hq : q ∉ (["timestamp", "zone_other_text"] : List String)) :
    commitForm f ts q = f q := by
  simp only [List.mem_cons, List.not_mem_nil, or_false, not_or] at hq
  unfold commitForm
  split
  · rw [updateF_ne _ _ hq.2, updateF_ne _ _ hq.1]
  · rw [updateF_ne _ _ hq.1]

/-- Transport of the session invariant along a pointwise form change that
keeps the respondent type and every role-specific field. -/
theorem sessionInv_of_untouched (s : SessionState) (f : Form)
    (hresp : f "respondent_type" = s.form "respondent_type")
    (hrole : ∀ k ∈ roleSpecificFields, f k = s.form k)
    (h : SessionInv s) :
    OtherRolesEmpty f ∧
    ∀ l, s.lastRespondentType = some l → f "respondent_type" = l := by
  obtain ⟨hOther, hLast⟩ := h
  constructor
  · intro k hk hnot
    rw [hresp] at hnot
    rw [hrole k hk]
    exact hOther k hk hnot
  · intro l hl
    rw [hresp]
    exact hLast l hl

theorem sessionInv_step2_next (s : SessionState) (z t g : Option String) (o : String)
    (h : SessionInv s) : SessionInv (render_step_2_next s z t g o) := by
  have hform : (render_step_2_next s z t g o).form = step2_merge s.form z t g o := by
    simp only [render_step_2_next]
    split <;> rfl
  have hlast : (render_step_2_next s z t g o).lastRespondentType = s.lastRespondentType := by
    simp only [render_step_2_next]
    split <;> rfl
  have hns : ∀ k ∈ roleSpecificFields,
      k ∉ (["zone", "zone_other_text", "time_in_area", "age_group"] : List String) := by
    decide
  have key := sessionInv_of_untouched s (step2_merge s.form z t g o)
    (step2_merge_untouched _ _ _ _ _ _ (by decide))
    (fun k hk => step2_merge_untouched _ _ _ _ _ _ (hns k hk)) h
  refine ⟨?_, ?_⟩
  · rw [hform]
    exact key.1
  · intro l hl
    rw [hlast] at hl
    rw [hform]
    exact key.2 l hl

theorem roleFields_sub_roleSpecific (rt : String) :
    ∀ k ∈ roleFieldsOf rt, k ∈ roleSpecificFields := by
  unfold roleFieldsOf
  repeat' split
  all_goals decide

theorem sessionInv_step3_next (s : SessionState) (i : Step3Input)
    (h : SessionInv s) : SessionInv (render_step_3_next s i) := by
  have hform : (render_step_3_next s i).form =
      step3_merge s.form (s.form "respondent_type") i := by
    simp only [render_step_3_next]
    split <;> rfl
  have hlast : (render_step_3_next s i).lastRespondentType = s.lastRespondentType := by
    simp only [render_step_3_next]
    split <;> rfl
  obtain ⟨hOther, hLast⟩ := h
  have hresp : (render_step_3_next s i).form "respondent_type" = s.form "respondent_type" := by
    rw [hform]
    exact step3_merge_not_mem _ _ _ (respondent_type_not_role _)
  refine ⟨?_, ?_⟩
  · intro k hk hnot
    rw [hresp] at hnot
    rw [hform, step3_merge_not_mem _ _ _ hnot]
    exact hOther k hk hnot
  · intro l hl
    rw [hlast] at hl
    rw [hresp]
    exact hLast l hl

theorem storeRows_some (cols : List String) (rows : List StoredRow) :
    storeRows ⟨some (cols, rows)⟩ = rows := rfl

theorem ensure_db_some (st : AnswerStore) :
    ∃ cols rows, (ensure_db st).table = some (cols, rows) := by
  rcases st with ⟨_ | ⟨cols, rows⟩⟩
  · exact ⟨dbColumns, [], rfl⟩
  · exact ⟨cols, rows, rfl⟩

theorem submit4_inv (s : SessionState) (store : AnswerStore)
    (bi lim strict : Option String) (sugg ts : String) (diskOk : Bool)
    (h : SessionInv s) (hst : StoreInv store) :
    SessionInv (render_step_4_submit s store bi lim strict sugg ts diskOk).1.1 ∧
    StoreInv (render_step_4_submit s store bi lim strict sugg ts diskOk).1.2 := by
  have hst1 : StoreInv (ensure_db store) := by
    intro r hr
    rw [storeRows_ensure] at hr
    exact hst r hr
  have hnr4 : ∀ k ∈ roleSpecificFields,
      k ∉ (["biggest_issue", "should_define_limits",
            "support_stricter_water_rules", "priority_suggestion"] : List String) := by
    decide
  have hnr2 : ∀ k ∈ roleSpecificFields,
      k ∉ (["timestamp", "zone_other_text"] : List String) := by
    decide
  have hresp : commitForm (step4_merge s.form bi lim strict sugg) ts "respondent_type"
      = s.form "respondent_type" := by
    rw [commitForm_untouched _ _ _ (by decide),
        step4_merge_untouched _ _ _ _ _ _ (by decide)]
  have hrole : ∀ k ∈ roleSpecificFields,
      commitForm (step4_merge s.form bi lim strict sugg) ts k = s.form k := by
    intro k hk
    rw [commitForm_untouched _ _ _ (hnr2 k hk),
        step4_merge_untouched _ _ _ _ _ _ (hnr4 k hk)]
  have hfInv := sessionInv_of_untouched s (step4_merge s.form bi lim strict sugg)
    (step4_merge_untouched _ _ _ _ _ _ (by decide))
    (fun k hk => step4_merge_untouched _ _ _ _ _ _ (hnr4 k hk)) h
  have hf2Inv := sessionInv_of_untouched s
    (commitForm (step4_merge s.form bi lim strict sugg) ts) hresp hrole h
  simp only [render_step_4_submit]
  split
  · -- step-3 validation succeeded
    split
    · -- disk healthy: the insert runs
      split
      · -- insert succeeded
        rename_i store2 heq
        constructor
        · constructor
          · intro k _ _
            rfl
          · intro l hl
            exact Option.noConfusion hl
        · -- the appended row keeps foreign-category fields blank
          unfold insert_response at heq
          obtain ⟨cols, rows, htab⟩ := ensure_db_some store
          rw [htab] at heq
          dsimp only at heq
          split at heq
          · have hstore2 :
                store2 = ⟨some (cols, rows ++ [(rows.length + 1,
                  normRow (rowOfForm (commitForm (step4_merge s.form bi lim strict sugg) ts)))])⟩ :=
              (Except.ok.inj heq).symm
            intro r hr
            rw [hstore2, storeRows_some] at hr
            rcases List.mem_append.mp hr with hold | hnew
            · have hmem : r ∈ storeRows (ensure_db store) := by
                unfold storeRows
                rw [htab]
                exact hold
              exact hst1 r hmem
            · rcases List.mem_singleton.mp hnew with rfl
              exact otherRolesEmptyRow_of_form _ _ hf2Inv.1
          · exact Except.noConfusion heq
      · -- insert failed: draft kept, store merely ensured
        exact ⟨⟨hf2Inv.1, fun l hl => hf2Inv.2 l hl⟩, hst1⟩
    · -- disk faulted before the insert
      exact ⟨⟨hf2Inv.1, fun l hl => hf2Inv.2 l hl⟩, hst1⟩
  · -- validation failed: merged draft kept, store untouched
    exact ⟨⟨hfInv.1, fun l hl => hfInv.2 l hl⟩, hst⟩

theorem sessionInv_reset (s : SessionState) : SessionInv (resetSurvey s) := by
  constructor
  · intro k _ _
    rfl
  · intro l hl
    exact Option.noConfusion hl

theorem appInv_step (a : AppState) (act : WizardAct) (h : AppInv a) :
    AppInv (stepFn a act) := by
  obtain ⟨hs, hst⟩ := h
  cases act with
  | start =>
    simp only [stepFn]
    split
    · exact ⟨sessionInv_reset a.1, hst⟩
    · exact ⟨hs, hst⟩
  | next1 rt =>
    simp only [stepFn]
    split
    · exact ⟨sessionInv_step1_next a.1 rt hs, hst⟩
    · exact ⟨hs, hst⟩
  | next2 z t g o =>
    simp only [stepFn]
    split
    · exact ⟨sessionInv_step2_next a.1 z t g o hs, hst⟩
    · exact ⟨hs, hst⟩
  | next3 i =>
    simp only [stepFn]
    split
    · exact ⟨sessionInv_step3_next a.1 i hs, hst⟩
    · exact ⟨hs, hst⟩
  | submit4 bi lim strict sugg ts ok =>
    simp only [stepFn]
    split
    · exact submit4_inv a.1 a.2 bi lim strict sugg ts ok hs hst
    · exact ⟨hs, hst⟩
  | back =>
    simp only [stepFn]
    split
    · exact ⟨⟨hs.1, hs.2⟩, hst⟩
    · exact ⟨hs, hst⟩
  | cancel =>
    simp only [stepFn]
    split
    · exact ⟨sessionInv_reset a.1, hst⟩
    · exact ⟨hs, hst⟩

theorem appInv_init : AppInv initApp := by
  constructor
  · constructor
    · intro k _ _
      rfl
    · intro l hl
      exact Option.noConfusion hl
  · intro r hr
    simp [initApp, ensure_db, storeRows] at hr

theorem appInv_run (acts : List WizardAct) : AppInv (runActs acts) := by
  suffices h : ∀ (l : List WizardAct) (a : AppState), AppInv a → AppInv (l.foldl stepFn a) by
    exact h acts initApp appInv_init
  intro l
  induction l with
  | nil => exact fun a ha => ha
  | cons act rest ih => exact fun a ha => ih (stepFn a act) (appInv_step a act ha)

theorem render_step_1_next_form (s : SessionState) (rt : Option String) :
    (render_step_1_next s rt).form = (step1_merge s rt).1 := by
  simp only [render_step_1_next]
  split <;> rfl

theorem step1_merge_reset (s : SessionState) (rt : Option String)
    (hch : s.lastRespondentType ≠ some (rt.getD "")) :
    ∀ k ∈ roleSpecificFields, (step1_merge s rt).1 k = "" := by
  intro k hk
  have hm : (step1_merge s rt).1 =
      setBlank (updateF s.form "respondent_type" (rt.getD "")) roleSpecificFields := by
    unfold step1_merge
    rw [if_pos hch]
  rw [hm, setBlank_apply]
  simp [hk]

/-- C2: whenever the respondent category submitted at step 0 differs from
the previously recorded category, every role-specific field (across all
categories) is reset to the empty string by the step-0 handler before
the draft can advance; consequently, in every reachable application
state the draft keeps all role-specific fields belonging to other
categories equal to the empty string, and the same holds of every row
committed to the store. -/
theorem c2_category_switch_reset :
    (∀ (s : SessionState) (rt : Option String),
      s.lastRespondentType ≠ some (rt.getD "") →
      ∀ k ∈ roleSpecificFields, (render_step_1_next s rt).form k = "") ∧
    (∀ acts : List WizardAct,
      OtherRolesEmpty (runActs acts).1.form ∧
      ∀ r ∈ storeRows (runActs acts).2, OtherRolesEmptyRow r) := by
  constructor
  · intro s rt hch k hk
    rw [render_step_1_next_form]
    exact step1_merge_reset s rt hch k hk
  · intro acts
    obtain ⟨⟨hOther, _⟩, hst⟩ := appInv_run acts
    exact ⟨hOther, hst⟩

/-- Witness for C2: from the fresh session (no category recorded),
submitting "Tourist" at step 0 leaves e.g. the Local-Resident field
`tanker_dependency` blank. -/
theorem c2_category_switch_reset_witness :
    (render_step_1_next initSession (some "Tourist")).form "tanker_dependency" = "" :=
  c2_category_switch_reset.1 initSession (some "Tourist") (by decide)
    "tanker_dependency" (by decide)

theorem isEmpty_false_of_ne_nil {l : List String} (h : l ≠ []) : l.isEmpty = false := by
  cases l with
  | nil => exact absurd rfl h
  | cons a t => rfl

/-- C10: at every step, when the handler's validation fails, the step
index is left unchanged but the draft has already been mutated — the
normalized raw input of that step was merged into the draft before
validation ran (and, at step 0, a changed or cleared category has
already blanked every role-specific field); nothing is rolled back on a
validation failure, and at step 3 the store is untouched. -/
theorem c10_merge_survives_failure :
    (∀ (s : SessionState) (rt : Option String),
      validate_current_step 0 (step1_merge s rt).1 ≠ [] →
        (render_step_1_next s rt).step = s.step ∧
        (render_step_1_next s rt).form = (step1_merge s rt).1 ∧
        (s.lastRespondentType ≠ some (rt.getD "") →
          ∀ k ∈ roleSpecificFields, (render_step_1_next s rt).form k = "")) ∧
    (∀ (s : SessionState) (z t g : Option String) (o : String),
      validate_current_step 1 (step2_merge s.form z t g o) ≠ [] →
        (render_step_2_next s z t g o).step = s.step ∧
        (render_step_2_next s z t g o).form = step2_merge s.form z t g o) ∧
    (∀ (s : SessionState) (i : Step3Input),
      validate_current_step 2 (step3_merge s.form (s.form "respondent_type") i) ≠ [] →
        (render_step_3_next s i).step = s.step ∧
        (render_step_3_next s i).form = step3_merge s.form (s.form "respondent_type") i) ∧
    (∀ (s : SessionState) (store : AnswerStore) (bi lim strict : Option String)
        (sugg ts : String) (ok : Bool),
      validate_current_step 3 (step4_merge s.form bi lim strict sugg) ≠ [] →
        (render_step_4_submit s store bi lim strict sugg ts ok).1.1.step = s.step ∧
        (render_step_4_submit s store bi lim strict sugg ts ok).1.1.form =
          step4_merge s.form bi lim strict sugg ∧
        (render_step_4_submit s store bi lim strict sugg ts ok).1.2 = store) := by
  refine ⟨?_, ?_, ?_, ?_⟩
  · intro s rt hval
    have hne := isEmpty_false_of_ne_nil hval
    refine ⟨?_, ?_, ?_⟩
    · simp [render_step_1_next, hne]
    · simp [render_step_1_next, hne]
    · intro hch k hk
      rw [render_step_1_next_form]
      exact step1_merge_reset s rt hch k hk
  · intro s z t g o hval
    have hne := isEmpty_false_of_ne_nil hval
    constructor <;> simp [render_step_2_next, hne]
  · intro s i hval
    have hne := isEmpty_false_of_ne_nil hval
    constructor <;> simp [render_step_3_next, hne]
  · intro s store bi lim strict sugg ts ok hval
    have hne := isEmpty_false_of_ne_nil hval
    refine ⟨?_, ?_, ?_⟩ <;> simp [render_step_4_submit, hne]

/-- Witness for C10: submitting step 0 with no category selected fails
validation and leaves the step index at 0. -/
theorem c10_merge_survives_failure_witness :
    (render_step_1_next initSession none).step = initSession.step :=
  (c10_merge_survives_failure.1 initSession none (by decide)).1

/-- Counterexample for C3: a complete session that answers the zone
question with "Other" and types "North Goa" commits a row whose `zone`
column holds the literal "Other" — the companion text is stored in the
separate `zone_other_text` column, not merged into `zone`. -/
theorem c3_other_zone_counterexample :
    otherZoneRows.length = 1 ∧
    rowGet otherZoneRow "zone" = "Other" ∧
    rowGet otherZoneRow "zone_other_text" = "North Goa" ∧
    ¬ rowGet otherZoneRow "zone" = "North Goa" := by decide

/-- C3 amended: when the zone field is answered with "Other" and a
non-empty companion text t, the committed Response keeps the literal
"Other" as the zone value and stores t in the separate
`zone_other_text` column (which is cleared whenever zone is not
"Other"); the zone column never receives t. -/
theorem c3_other_zone_amended : ∀ (f : Form) (ts : String),
    (f "zone" = "Other" →
      pyGet (rowOfForm (commitForm f ts)) "zone" = "Other" ∧
      pyGet (rowOfForm (commitForm f ts)) "zone_other_text" = f "zone_other_text") ∧
    (f "zone" ≠ "Other" →
      pyGet (rowOfForm (commitForm f ts)) "zone_other_text" = "") := by
  intro f ts
  have hz1 : updateF f "timestamp" ts "zone" = f "zone" := updateF_ne _ _ (by decide)
  constructor
  · intro hz
    have hzz : commitForm f ts "zone" = f "zone" := commitForm_untouched _ _ _ (by decide)
    have hcf : commitForm f ts "zone_other_text" = f "zone_other_text" := by
      unfold commitForm
      rw [if_neg]
      · exact updateF_ne _ _ (by decide)
      · rw [hz1, hz]
        simp
    rw [pyGet_rowOfForm _ (by decide), pyGet_rowOfForm _ (by decide), hzz, hcf, hz]
    exact ⟨rfl, rfl⟩
  · intro hz
    have hcf : commitForm f ts "zone_other_text" = "" := by
      unfold commitForm
      rw [if_pos, updateF_self]
      rw [hz1]
      exact hz
    rw [pyGet_rowOfForm _ (by decide), hcf]

/-- Witness for the amended C3 on a concrete draft. -/
theorem c3_other_zone_amended_witness :
    pyGet (rowOfForm (commitForm otherZoneForm "2026-01-01T00:00:00+05:30")) "zone"
      = "Other" :=
  ((c3_other_zone_amended otherZoneForm "2026-01-01T00:00:00+05:30").1 rfl).1

/-- Counterexample for C4: `ensure_db` on an existing store whose table
lacks the schema field `zone` leaves the column set unchanged — the
missing field is not added as a new column. -/
theorem c4_ensure_counterexample :
    "zone" ∈ ALL_COLUMNS ∧
    (ensure_db legacyStore).table = some (["id", "timestamp"], []) ∧
    "zone" ∉ (["id", "timestamp"] : List String) := by decide

/-- C4 amended: `ensure` is idempotent and creates the full-schema table
when it is absent, but it performs no column migration on an existing
table: the existing store is returned exactly as it was, and missing
schema fields are not added. -/
theorem c4_ensure_amended : ∀ s : AnswerStore,
    ensure_db (ensure_db s) = ensure_db s ∧
    (s.table = none → ensure_db s = ⟨some (dbColumns, [])⟩) ∧
    (∀ t, s.table = some t → ensure_db s = s) := by
  intro s
  rcases s with ⟨_ | t⟩
  · exact ⟨rfl, fun _ => rfl, fun t ht => Option.noConfusion ht⟩
  · exact ⟨rfl, fun h => Option.noConfusion h, fun t' _ => rfl⟩

/-- Witness for the amended C4: creating the table from nothing yields
the full schema. -/
theorem c4_ensure_amended_witness :
    ensure_db emptyStore = ⟨some (dbColumns, [])⟩ :=
  (c4_ensure_amended emptyStore).2.1 rfl

/-- C5: inserting a field mapping and reading back through `fetchAll`
yields, as the most recent (first) row, exactly the inserted mapping
with absent or null keys normalized to the empty string on every schema
field, while the remainder of the fetch result is the previous fetch
result — i.e. `fetchAll` returns rows most recently inserted first. -/
theorem c5_insert_fetch_roundtrip :
    ∀ (row : List (String × Option String)) (s s' : AnswerStore),
    insert_response row s = .ok s' →
      (fetch_all_responses s').2 ≠ [] ∧
      (∀ c ∈ ALL_COLUMNS,
        rowGet ((fetch_all_responses s').2.headD (0, [])) c = pyGet row c) ∧
      (fetch_all_responses s').2.tail = (fetch_all_responses s).2 := by
  intro row s s' h
  rcases s with ⟨_ | ⟨cols, rows⟩⟩
  · exact absurd h (by simp [insert_response])
  · unfold insert_response at h
    dsimp only at h
    split at h
    · have hs' : s' = ⟨some (cols, rows ++ [(rows.length + 1, normRow row)])⟩ :=
        (Except.ok.inj h).symm
      subst hs'
      have hfetch' :
          (fetch_all_responses ⟨some (cols, rows ++ [(rows.length + 1, normRow row)])⟩).2
            = (rows.length + 1, normRow row) :: rows.reverse := by
        unfold fetch_all_responses ensure_db storeRows
        simp
      have hfetch : (fetch_all_responses ⟨some (cols, rows)⟩).2 = rows.reverse := by
        unfold fetch_all_responses ensure_db storeRows
        simp
      refine ⟨?_, ?_, ?_⟩
      · rw [hfetch']
        exact List.cons_ne_nil _ _
      · intro c hc
        rw [hfetch']
        show rowGet (rows.length + 1, normRow row) c = pyGet row c
        unfold rowGet normRow
        rw [lookup_map_mem (fun c => pyGet row c) ALL_COLUMNS hc, Option.getD_some]
      · rw [hfetch', hfetch]
        rfl
    · exact Except.noConfusion h

/-- Witness for C5: the concrete insert of `demoRowInput` reads back
with `zone = "Baga"` in the newest row. -/
theorem c5_insert_fetch_roundtrip_witness :
    rowGet ((fetch_all_responses demoStore2).2.headD (0, [])) "zone" = "Baga" :=
  (c5_insert_fetch_roundtrip demoRowInput demoStore demoStore2 rfl).2.1 "zone" (by decide)

theorem utf8Encode_append (a b : String) :
    utf8Encode (a ++ b) = utf8Encode a ++ utf8Encode b := by
  unfold utf8Encode
  rw [String.data_append, List.map_append, List.flatten_append]

/-- Counterexample for C6: the exported CSV of the fetched frame (its
columns are the surrogate `id` key followed by `ALL_COLUMNS`) does not
begin with a UTF-8 byte-order marker — `str.encode("utf-8")` emits no
BOM — and its header row starts with the internal `id` column, which is
not excluded from the export. -/
theorem c6_export_counterexample :
    (df_to_csv_bytes dbColumns []).take 3 ≠ utf8BOM ∧
    "id" ∈ dbColumns ∧
    (df_to_csv dbColumns []).data.take 3 = [Char.ofNat 105, Char.ofNat 100, Char.ofNat 44] := by
  decide

set_option maxRecDepth 10000 in
/-- C6 amended: for every row sequence, the export is plain UTF-8 with
no byte-order marker — the byte sequence always begins with the bytes
of "id," (the internal surrogate-key column heading every header row),
and no storage column is excluded from the export. -/
theorem c6_export_amended : ∀ rows : List (List String),
    (df_to_csv_bytes dbColumns rows).take 3 = [105, 100, 44] ∧
    (df_to_csv_bytes dbColumns rows).take 3 ≠ utf8BOM ∧
    "id" ∈ dbColumns := by
  intro rows
  have hsplit : df_to_csv_bytes dbColumns rows =
      utf8Encode (csvLine dbColumns ++ "\n") ++
      utf8Encode (String.join (rows.map fun r => csvLine r ++ "\n")) := by
    unfold df_to_csv_bytes df_to_csv
    rw [utf8Encode_append]
  have htake : (df_to_csv_bytes dbColumns rows).take 3 = [105, 100, 44] := by
    rw [hsplit, List.take_append_of_le_length (by decide)]
    decide
  refine ⟨htake, ?_, by decide⟩
  rw [htake]
  decide

/-- Witness for the amended C6 at a concrete one-row frame. -/
theorem c6_export_amended_witness :
    (df_to_csv_bytes dbColumns [["7"]]).take 3 = [105, 100, 44] :=
  (c6_export_amended [["7"]]).1

/-- C7: the admin gate accepts exactly the configured credential pair
(verbatim string comparison); every failing pair leaves the
authenticated flag false, fetches no data (so the row listing and the
CSV export stay inaccessible), and produces the single generic
invalid-credentials message, identical for a wrong username and a wrong
password. -/
theorem c7_admin_gate : ∀ (u p : String) (store : AnswerStore),
    (authenticate u p = true ↔ u = ADMIN_USERNAME ∧ p = ADMIN_PASSWORD) ∧
    (authenticate u p = false →
      (render_admin false true u p store).1.adminLoggedIn = false ∧
      (render_admin false true u p store).1.errorMessage =
        some "Invalid username or password." ∧
      (render_admin false true u p store).1.dataShown = none ∧
      (render_admin false true u p store).2 = store) := by
  intro u p store
  constructor
  · simp [authenticate, Bool.not_eq_true]
  · intro hfail
    have hcond : (u != ADMIN_USERNAME || p != ADMIN_PASSWORD) = true := by
      have := congrArg (fun b => !b) hfail
      simpa [authenticate] using this
    refine ⟨?_, ?_, ?_, ?_⟩ <;> simp [render_admin, hcond]

/-- Witness for C7: the pair ("wrong", "wrong") is rejected with no data
access. -/
theorem c7_admin_gate_witness :
    (render_admin false true "wrong" "wrong" emptyStore).1.dataShown = none :=
  ((c7_admin_gate "wrong" "wrong" emptyStore).2 (by decide)).2.2.1

/-- C8: when the insert performed at commit fails with a storage fault,
the draft answer set is preserved exactly as merged and timestamped (it
is neither reset nor discarded), the session stays on its page and step
(no transition to landing), the stored rows are unchanged, and the
fault is surfaced to the caller. -/
theorem c8_storage_failure_preserves_draft :
    ∀ (s : SessionState) (store : AnswerStore) (bi lim strict : Option String)
      (sugg ts : String),
    validate_current_step 3 (step4_merge s.form bi lim strict sugg) = [] →
      (render_step_4_submit s store bi lim strict sugg ts false).1.1.page = s.page ∧
      (render_step_4_submit s store bi lim strict sugg ts false).1.1.step = s.step ∧
      (render_step_4_submit s store bi lim strict sugg ts false).1.1.form =
        commitForm (step4_merge s.form bi lim strict sugg) ts ∧
      storeRows (render_step_4_submit s store bi lim strict sugg ts false).1.2 =
        storeRows store ∧
      (render_step_4_submit s store bi lim strict sugg ts false).2 =
        some StorageFault.ioError := by
  intro s store bi lim strict sugg ts hval
  have hemp : (validate_current_step 3 (step4_merge s.form bi lim strict sugg)).isEmpty
      = true := by
    rw [hval]
    rfl
  refine ⟨?_, ?_, ?_, ?_, ?_⟩ <;> simp [render_step_4_submit, hemp, storeRows_ensure]

/-- Witness for C8: a concrete valid step-3 submission against a broken
disk surfaces the fault. -/
theorem c8_storage_failure_preserves_draft_witness :
    (render_step_4_submit initSession emptyStore (some "Traffic") (some "Agree")
      (some "Yes") "sugg" "2026-01-01T00:00:00+05:30" false).2 =
      some StorageFault.ioError :=
  (c8_storage_failure_preserves_draft initSession emptyStore (some "Traffic")
    (some "Agree") (some "Yes") "sugg" "2026-01-01T00:00:00+05:30" (by decide)).2.2.2.2

example : validate_current_step 0 (fun _ => "") = ["Q1 (Respondent type) is required."] := by decide
example : rowGet otherZoneRow "showers_per_day" = "1" := by decide
example : rowGet otherZoneRow "drinking_water" = "both" := by decide
example : rowGet otherZoneRow "respondent_type" = "Tourist" := by decide
example : (runActs otherZoneActs).1.page = "landing" := by decide
example : validate_current_step 1 (fun k => if k = "zone" then "Baga" else if k = "time_in_area" then "<1 week" else "") = [] := by decide
example : validate_current_step 2 (fun k => if k = "respondent_type" then "Bird" else "x") = ["Respondent type is missing. Go back to Step 1."] := by decide
example : pyReplace "abcabc" "bc" "X" = "aXaX" := by decide
example : pyReplace "More than twice" "Twice" "2" = "More than twice" := by decide
example : pyStrip "  North Goa " = "North Goa" := by decide
example : pyLower "Strongly agree" = "strongly agree" := by decide
